import Mathlib

/-!
Shallow embedding of the Flavor-Forge storage engine: the `MemStorage`
class of `server/storage.ts` (full nine-collection version, reproduced in
`server/mealdb-service.ts` lines 409-810) with entity shapes from
`shared/schema.ts`.

Modelling conventions:
* A JavaScript `Map` is an insertion-ordered association list;
  `Map.set` on an existing key replaces the value in place, otherwise
  appends; `Array.from(map.values())` is the list of values in order.
* Timestamps (`Date`) are epoch milliseconds (`Nat`); `new Date()` inside
  an operation becomes an explicit `now` parameter.
* JavaScript numbers are modelled exactly: integer columns as `Int`/`Nat`,
  the one division (`getAverageRating`) over `ℚ`, with `toFixed(1)`
  rounding to the nearest tenth (ties up, as for the positive values that
  arise); double-precision artefacts are below this abstraction.
* `x || null` on a nullable string/number maps the falsy values `""`/`0`
  to `null`; on an array it is the identity (arrays are truthy).
* `Array.prototype.sort` is stable (ES2019), embedded as `List.mergeSort`
  with `le a b := comparator a b ≤ 0`.
-/

namespace FlavorForge

/-- JS `Map.prototype.get`: value of the first (unique) binding of `k`. -/
def mapGet {κ β : Type} [DecidableEq κ] (m : List (κ × β)) (k : κ) : Option β :=
  (m.find? (fun p => decide (p.1 = k))).map (fun p => p.2)

/-- JS `Map.prototype.has`. -/
def mapHas {κ β : Type} [DecidableEq κ] (m : List (κ × β)) (k : κ) : Bool :=
  m.any (fun p => decide (p.1 = k))

/-- JS `Map.prototype.set`: replace in place when the key is present,
append otherwise. -/
def mapSet {κ β : Type} [DecidableEq κ] (m : List (κ × β)) (k : κ) (v : β) :
    List (κ × β) :=
  if mapHas m k then m.map (fun p => if p.1 = k then (k, v) else p)
  else m ++ [(k, v)]

/-- JS `Map.prototype.delete` (the resulting map; the returned boolean is
`mapHas m k`). -/
def mapDelete {κ β : Type} [DecidableEq κ] (m : List (κ × β)) (k : κ) :
    List (κ × β) :=
  m.filter (fun p => decide (p.1 ≠ k))

/-- JS `Array.from(map.values())`. -/
def mapValues {κ β : Type} (m : List (κ × β)) : List β :=
  m.map (fun p => p.2)

/-- `x || null` for a nullable string: the empty string is falsy. -/
def jsOrNullS (o : Option String) : Option String :=
  match o with
  | some s => if s = "" then none else some s
  | none => none

/-- `x || null` for a nullable integer: `0` is falsy. -/
def jsOrNullI (o : Option Int) : Option Int :=
  match o with
  | some n => if n = 0 then none else some n
  | none => none

/-- `x || null` for a nullable rational (the cached `Recipe.rating`). -/
def jsOrNullQ (o : Option ℚ) : Option ℚ :=
  match o with
  | some q => if q = 0 then none else some q
  | none => none

/-- `x || false` for a nullable boolean. -/
def jsOrFalse (o : Option Bool) : Bool :=
  match o with
  | some b => b
  | none => false

/-- JS `String.prototype.toLowerCase()` (ASCII case mapping). -/
def jsToLower (s : String) : String :=
  String.mk (s.data.map Char.toLower)

/- Entity records (`shared/schema.ts`). -/

structure User where
  id : Nat
  username : String
  email : String
  name : String
  password : String
  bio : Option String
  avatarUrl : Option String
  createdAt : Nat
deriving DecidableEq

structure Recipe where
  id : Nat
  title : String
  description : String
  imageUrl : String
  prepTime : Int
  cookTime : Int
  difficulty : String
  calories : Option Int
  protein : Option Int
  fats : Option Int
  carbs : Option Int
  servings : Option Int
  rating : Option ℚ
  userId : Nat
  createdAt : Nat
  source : Option String
  cookingTips : Option String
  tags : Option (List String)
deriving DecidableEq

structure Ingredient where
  id : Nat
  recipeId : Nat
  name : String
  quantity : String
  unit : Option String
deriving DecidableEq

structure Instruction where
  id : Nat
  recipeId : Nat
  stepNumber : Int
  description : String
deriving DecidableEq

structure Review where
  id : Nat
  userId : Nat
  recipeId : Nat
  rating : Int
  comment : String
  createdAt : Nat
deriving DecidableEq

structure Favorite where
  userId : Nat
  recipeId : Nat
  createdAt : Nat
deriving DecidableEq

structure ShoppingListItem where
  id : Nat
  userId : Nat
  item : String
  quantity : Option String
  unit : Option String
  checked : Bool
  recipeId : Option Int
  spoonacularId : Option Int
  createdAt : Nat
deriving DecidableEq

structure MealPlan where
  id : Nat
  userId : Nat
  recipeId : Nat
  plannedDate : Nat
  mealType : String
  notes : Option String
  createdAt : Nat
deriving DecidableEq

structure ActivityLog where
  id : Nat
  userId : Nat
  action : String
  entityId : Option Int
  entityType : Option String
  details : Option String
  createdAt : Nat
deriving DecidableEq

/- Insert payloads (`insertXSchema.pick` projections in `shared/schema.ts`). -/

structure InsertUser where
  username : String
  email : String
  name : String
  password : String
  bio : Option String
  avatarUrl : Option String
deriving DecidableEq

structure InsertRecipe where
  title : String
  description : String
  imageUrl : String
  prepTime : Int
  cookTime : Int
  difficulty : String
  calories : Option Int
  protein : Option Int
  fats : Option Int
  carbs : Option Int
  servings : Option Int
  rating : Option ℚ
  userId : Nat
  source : Option String
  cookingTips : Option String
  tags : Option (List String)
deriving DecidableEq

structure InsertIngredient where
  recipeId : Nat
  name : String
  quantity : String
  unit : Option String
deriving DecidableEq

structure InsertInstruction where
  recipeId : Nat
  stepNumber : Int
  description : String
deriving DecidableEq

structure InsertReview where
  userId : Nat
  recipeId : Nat
  rating : Int
  comment : String
deriving DecidableEq

structure InsertFavorite where
  userId : Nat
  recipeId : Nat
deriving DecidableEq

structure InsertShoppingListItem where
  userId : Nat
  item : String
  quantity : Option String
  unit : Option String
  checked : Option Bool
  recipeId : Option Int
  spoonacularId : Option Int
deriving DecidableEq

structure InsertMealPlan where
  userId : Nat
  recipeId : Nat
  plannedDate : Nat
  mealType : String
  notes : Option String
deriving DecidableEq

structure InsertActivityLog where
  userId : Nat
  action : String
  entityId : Option Int
  entityType : Option String
  details : Option String
deriving DecidableEq

/- `Partial<InsertX>` payloads for the update operations: every field may
be absent; `{ ...existing, ...update }` overrides exactly the present
fields. -/

structure UserUpdate where
  username : Option String := none
  email : Option String := none
  name : Option String := none
  password : Option String := none
  bio : Option (Option String) := none
  avatarUrl : Option (Option String) := none
deriving DecidableEq

structure RecipeUpdate where
  title : Option String := none
  description : Option String := none
  imageUrl : Option String := none
  prepTime : Option Int := none
  cookTime : Option Int := none
  difficulty : Option String := none
  calories : Option (Option Int) := none
  protein : Option (Option Int) := none
  fats : Option (Option Int) := none
  carbs : Option (Option Int) := none
  servings : Option (Option Int) := none
  rating : Option (Option ℚ) := none
  userId : Option Nat := none
  source : Option (Option String) := none
  cookingTips : Option (Option String) := none
  tags : Option (Option (List String)) := none
deriving DecidableEq

structure ReviewUpdate where
  userId : Option Nat := none
  recipeId : Option Nat := none
  rating : Option Int := none
  comment : Option String := none
deriving DecidableEq

structure ShoppingListItemUpdate where
  userId : Option Nat := none
  item : Option String := none
  quantity : Option (Option String) := none
  unit : Option (Option String) := none
  checked : Option Bool := none
  recipeId : Option (Option Int) := none
  spoonacularId : Option (Option Int) := none
deriving DecidableEq

structure MealPlanUpdate where
  userId : Option Nat := none
  recipeId : Option Nat := none
  plannedDate : Option Nat := none
  mealType : Option String := none
  notes : Option (Option String) := none
deriving DecidableEq

/-- `{ ...existingUser, ...userUpdate }`. -/
def applyUserUpdate (u : User) (upd : UserUpdate) : User :=
  { u with
    username := upd.username.getD u.username
    email := upd.email.getD u.email
    name := upd.name.getD u.name
    password := upd.password.getD u.password
    bio := upd.bio.getD u.bio
    avatarUrl := upd.avatarUrl.getD u.avatarUrl }

/-- `{ ...existingRecipe, ...recipeUpdate }`. -/
def applyRecipeUpdate (r : Recipe) (upd : RecipeUpdate) : Recipe :=
  { r with
    title := upd.title.getD r.title
    description := upd.description.getD r.description
    imageUrl := upd.imageUrl.getD r.imageUrl
    prepTime := upd.prepTime.getD r.prepTime
    cookTime := upd.cookTime.getD r.cookTime
    difficulty := upd.difficulty.getD r.difficulty
    calories := upd.calories.getD r.calories
    protein := upd.protein.getD r.protein
    fats := upd.fats.getD r.fats
    carbs := upd.carbs.getD r.carbs
    servings := upd.servings.getD r.servings
    rating := upd.rating.getD r.rating
    userId := upd.userId.getD r.userId
    source := upd.source.getD r.source
    cookingTips := upd.cookingTips.getD r.cookingTips
    tags := upd.tags.getD r.tags }

/-- `{ ...existingReview, ...reviewUpdate }`. -/
def applyReviewUpdate (rv : Review) (upd : ReviewUpdate) : Review :=
  { rv with
    userId := upd.userId.getD rv.userId
    recipeId := upd.recipeId.getD rv.recipeId
    rating := upd.rating.getD rv.rating
    comment := upd.comment.getD rv.comment }

/-- `{ ...existingItem, ...itemUpdate }`. -/
def applyShoppingListItemUpdate (it : ShoppingListItem)
    (upd : ShoppingListItemUpdate) : ShoppingListItem :=
  { it with
    userId := upd.userId.getD it.userId
    item := upd.item.getD it.item
    quantity := upd.quantity.getD it.quantity
    unit := upd.unit.getD it.unit
    checked := upd.checked.getD it.checked
    recipeId := upd.recipeId.getD it.recipeId
    spoonacularId := upd.spoonacularId.getD it.spoonacularId }

/-- `{ ...existingMealPlan, ...mealPlanUpdate }`. -/
def applyMealPlanUpdate (mp : MealPlan) (upd : MealPlanUpdate) : MealPlan :=
  { mp with
    userId := upd.userId.getD mp.userId
    recipeId := upd.recipeId.getD mp.recipeId
    plannedDate := upd.plannedDate.getD mp.plannedDate
    mealType := upd.mealType.getD mp.mealType
    notes := upd.notes.getD mp.notes }

/-- The `MemStorage` state: nine insertion-ordered collections plus the
per-entity id counters. -/
structure State where
  users : List (Nat × User)
  recipes : List (Nat × Recipe)
  ingredients : List (Nat × Ingredient)
  instructions : List (Nat × Instruction)
  reviews : List (Nat × Review)
  favorites : List (String × Favorite)
  shoppingItems : List (Nat × ShoppingListItem)
  mealPlans : List (Nat × MealPlan)
  activityLogs : List (Nat × ActivityLog)
  userCurrentId : Nat
  recipeCurrentId : Nat
  ingredientCurrentId : Nat
  instructionCurrentId : Nat
  reviewCurrentId : Nat
  shoppingItemCurrentId : Nat
  mealPlanCurrentId : Nat
  activityLogCurrentId : Nat
deriving DecidableEq

/-- The `MemStorage` constructor: empty maps, all counters at 1. -/
def initState : State :=
  { users := [], recipes := [], ingredients := [], instructions := []
    reviews := [], favorites := [], shoppingItems := [], mealPlans := []
    activityLogs := []
    userCurrentId := 1, recipeCurrentId := 1, ingredientCurrentId := 1
    instructionCurrentId := 1, reviewCurrentId := 1, shoppingItemCurrentId := 1
    mealPlanCurrentId := 1, activityLogCurrentId := 1 }

/- User methods. -/

def getUser (s : State) (id : Nat) : Option User :=
  mapGet s.users id

def getUserByUsername (s : State) (username : String) : Option User :=
  (mapValues s.users).find?
    (fun user => jsToLower user.username == jsToLower username)

def getUserByEmail (s : State) (email : String) : Option User :=
  (mapValues s.users).find?
    (fun user => jsToLower user.email == jsToLower email)

def createUser (s : State) (insertUser : InsertUser) (now : Nat) :
    User × State :=
  let id := s.userCurrentId
  let user : User :=
    { id := id
      username := insertUser.username
      email := insertUser.email
      name := insertUser.name
      password := insertUser.password
      createdAt := now
      bio := jsOrNullS insertUser.bio
      avatarUrl := jsOrNullS insertUser.avatarUrl }
  (user, { s with users := mapSet s.users id user, userCurrentId := id + 1 })

def updateUser (s : State) (id : Nat) (userUpdate : UserUpdate) :
    Option User × State :=
  match mapGet s.users id with
  | none => (none, s)
  | some existingUser =>
    let updatedUser := applyUserUpdate existingUser userUpdate
    (some updatedUser, { s with users := mapSet s.users id updatedUser })

/- Recipe methods. -/

def getRecipe (s : State) (id : Nat) : Option Recipe :=
  mapGet s.recipes id

def getRecipes (s : State) : List Recipe :=
  mapValues s.recipes

def getRecipesByUser (s : State) (userId : Nat) : List Recipe :=
  (mapValues s.recipes).filter (fun recipe => recipe.userId == userId)

def getRecentRecipes (s : State) (limit : Nat) : List Recipe :=
  ((mapValues s.recipes).mergeSort
    (fun a b => decide (b.createdAt ≤ a.createdAt))).take limit

def hasTag (recipe : Recipe) (tag : String) : Bool :=
  match recipe.tags with
  | some ts => ts.contains tag
  | none => false

/-- `limit ? recipes.slice(0, limit) : recipes`: an absent limit and a
limit of `0` are both falsy and return every match. -/
def getRecipesByTag (s : State) (tag : String) (limit : Option Nat) :
    List Recipe :=
  let recipes := (mapValues s.recipes).filter (fun recipe => hasTag recipe tag)
  match limit with
  | some l => if l ≠ 0 then recipes.take l else recipes
  | none => recipes

def createRecipe (s : State) (insertRecipe : InsertRecipe) (now : Nat) :
    Recipe × State :=
  let id := s.recipeCurrentId
  let recipe : Recipe :=
    { id := id
      title := insertRecipe.title
      description := insertRecipe.description
      imageUrl := insertRecipe.imageUrl
      prepTime := insertRecipe.prepTime
      cookTime := insertRecipe.cookTime
      difficulty := insertRecipe.difficulty
      userId := insertRecipe.userId
      createdAt := now
      calories := jsOrNullI insertRecipe.calories
      protein := jsOrNullI insertRecipe.protein
      fats := jsOrNullI insertRecipe.fats
      carbs := jsOrNullI insertRecipe.carbs
      servings := jsOrNullI insertRecipe.servings
      rating := jsOrNullQ insertRecipe.rating
      source := jsOrNullS insertRecipe.source
      cookingTips := jsOrNullS insertRecipe.cookingTips
      tags := insertRecipe.tags }
  (recipe,
    { s with recipes := mapSet s.recipes id recipe, recipeCurrentId := id + 1 })

def updateRecipe (s : State) (id : Nat) (recipeUpdate : RecipeUpdate) :
    Option Recipe × State :=
  match mapGet s.recipes id with
  | none => (none, s)
  | some existingRecipe =>
    let updatedRecipe := applyRecipeUpdate existingRecipe recipeUpdate
    (some updatedRecipe, { s with recipes := mapSet s.recipes id updatedRecipe })

def deleteRecipe (s : State) (id : Nat) : Bool × State :=
  (mapHas s.recipes id, { s with recipes := mapDelete s.recipes id })

/- Ingredient and Instruction methods. -/

def getIngredientsByRecipe (s : State) (recipeId : Nat) : List Ingredient :=
  (mapValues s.ingredients).filter
    (fun ingredient => ingredient.recipeId == recipeId)

def createIngredient (s : State) (insertIngredient : InsertIngredient) :
    Ingredient × State :=
  let id := s.ingredientCurrentId
  let ingredient : Ingredient :=
    { id := id
      recipeId := insertIngredient.recipeId
      name := insertIngredient.name
      quantity := insertIngredient.quantity
      unit := jsOrNullS insertIngredient.unit }
  (ingredient,
    { s with
      ingredients := mapSet s.ingredients id ingredient
      ingredientCurrentId := id + 1 })

def getInstructionsByRecipe (s : State) (recipeId : Nat) : List Instruction :=
  ((mapValues s.instructions).filter
    (fun instruction => instruction.recipeId == recipeId)).mergeSort
    (fun a b => decide (a.stepNumber ≤ b.stepNumber))

def createInstruction (s : State) (insertInstruction : InsertInstruction) :
    Instruction × State :=
  let id := s.instructionCurrentId
  let instruction : Instruction :=
    { id := id
      recipeId := insertInstruction.recipeId
      stepNumber := insertInstruction.stepNumber
      description := insertInstruction.description }
  (instruction,
    { s with
      instructions := mapSet s.instructions id instruction
      instructionCurrentId := id + 1 })

/- Review methods. -/

def getReviewsByRecipe (s : State) (recipeId : Nat) : List Review :=
  ((mapValues s.reviews).filter
    (fun review => review.recipeId == recipeId)).mergeSort
    (fun a b => decide (b.createdAt ≤ a.createdAt))

def getReviewsByUser (s : State) (userId : Nat) : List Review :=
  ((mapValues s.reviews).filter
    (fun review => review.userId == userId)).mergeSort
    (fun a b => decide (b.createdAt ≤ a.createdAt))

def createReview (s : State) (insertReview : InsertReview) (now : Nat) :
    Review × State :=
  let id := s.reviewCurrentId
  let review : Review :=
    { id := id
      userId := insertReview.userId
      recipeId := insertReview.recipeId
      rating := insertReview.rating
      comment := insertReview.comment
      createdAt := now }
  (review,
    { s with reviews := mapSet s.reviews id review, reviewCurrentId := id + 1 })

def updateReview (s : State) (id : Nat) (reviewUpdate : ReviewUpdate) :
    Option Review × State :=
  match mapGet s.reviews id with
  | none => (none, s)
  | some existingReview =>
    let updatedReview := applyReviewUpdate existingReview reviewUpdate
    (some updatedReview, { s with reviews := mapSet s.reviews id updatedReview })

def deleteReview (s : State) (id : Nat) : Bool × State :=
  (mapHas s.reviews id, { s with reviews := mapDelete s.reviews id })

/-- `parseFloat(x.toFixed(1))`: round to the nearest tenth. -/
def round1 (q : ℚ) : ℚ :=
  (round (q * 10) : ℤ) / 10

def getAverageRating (s : State) (recipeId : Nat) : Option ℚ :=
  let reviews := getReviewsByRecipe s recipeId
  if reviews.length = 0 then none
  else
    let sum := reviews.foldl (fun total review => total + review.rating) (0 : ℤ)
    some (round1 ((sum : ℚ) / (reviews.length : ℚ)))

def getTopRecipes (s : State) (limit : Nat) : List Recipe :=
  let recipes := mapValues s.recipes
  let recipeRatings :=
    recipes.foldl
      (fun m recipe =>
        mapSet m recipe.id ((getAverageRating s recipe.id).getD 0))
      ([] : List (Nat × ℚ))
  (recipes.mergeSort
    (fun a b =>
      decide ((mapGet recipeRatings b.id).getD 0 ≤
        (mapGet recipeRatings a.id).getD 0))).take limit

/- Favorites methods. -/

/-- The composite map key `` `${userId}-${recipeId}` ``. -/
def favKey (userId recipeId : Nat) : String :=
  toString userId ++ "-" ++ toString recipeId

def getFavorites (s : State) (userId : Nat) : List Recipe :=
  ((mapValues s.favorites).filter
    (fun favorite => favorite.userId == userId)).filterMap
    (fun favorite => getRecipe s favorite.recipeId)

def addFavorite (s : State) (insertFavorite : InsertFavorite) (now : Nat) :
    Favorite × State :=
  let key := favKey insertFavorite.userId insertFavorite.recipeId
  let favorite : Favorite :=
    { userId := insertFavorite.userId
      recipeId := insertFavorite.recipeId
      createdAt := now }
  (favorite, { s with favorites := mapSet s.favorites key favorite })

def removeFavorite (s : State) (userId recipeId : Nat) : Bool × State :=
  let key := favKey userId recipeId
  (mapHas s.favorites key, { s with favorites := mapDelete s.favorites key })

def isFavorite (s : State) (userId recipeId : Nat) : Bool :=
  mapHas s.favorites (favKey userId recipeId)

/- Shopping list methods. -/

def getShoppingList (s : State) (userId : Nat) : List ShoppingListItem :=
  ((mapValues s.shoppingItems).filter
    (fun item => item.userId == userId)).mergeSort
    (fun a b => decide (a.createdAt ≤ b.createdAt))

def getShoppingListItem (s : State) (id : Nat) : Option ShoppingListItem :=
  mapGet s.shoppingItems id

def addToShoppingList (s : State) (insertItem : InsertShoppingListItem)
    (now : Nat) : ShoppingListItem × State :=
  let id := s.shoppingItemCurrentId
  let item : ShoppingListItem :=
    { id := id
      userId := insertItem.userId
      item := insertItem.item
      createdAt := now
      recipeId := jsOrNullI insertItem.recipeId
      quantity := jsOrNullS insertItem.quantity
      unit := jsOrNullS insertItem.unit
      checked := jsOrFalse insertItem.checked
      spoonacularId := jsOrNullI insertItem.spoonacularId }
  (item,
    { s with
      shoppingItems := mapSet s.shoppingItems id item
      shoppingItemCurrentId := id + 1 })

def updateShoppingListItem (s : State) (id : Nat)
    (itemUpdate : ShoppingListItemUpdate) :
    Option ShoppingListItem × State :=
  match mapGet s.shoppingItems id with
  | none => (none, s)
  | some existingItem =>
    let updatedItem := applyShoppingListItemUpdate existingItem itemUpdate
    (some updatedItem,
      { s with shoppingItems := mapSet s.shoppingItems id updatedItem })

def deleteShoppingListItem (s : State) (id : Nat) : Bool × State :=
  (mapHas s.shoppingItems id,
    { s with shoppingItems := mapDelete s.shoppingItems id })

def clearShoppingList (s : State) (userId : Nat) : Bool × State :=
  let userItems :=
    (mapValues s.shoppingItems).filter (fun item => item.userId == userId)
  (true,
    { s with
      shoppingItems :=
        userItems.foldl (fun m item => mapDelete m item.id) s.shoppingItems })

/- Meal plan methods. -/

def getMealPlans (s : State) (userId : Nat) : List MealPlan :=
  ((mapValues s.mealPlans).filter
    (fun plan => plan.userId == userId)).mergeSort
    (fun a b => decide (a.plannedDate ≤ b.plannedDate))

/-- `setHours(0, 0, 0, 0)`: truncate an epoch-millisecond timestamp to
midnight (UTC in this model). -/
def truncDay (t : Nat) : Nat :=
  t - t % 86400000

/-- The `mealTypeOrder` record lookup with `|| 99` default. -/
def mealTypeOrd (mealType : String) : Nat :=
  if mealType = "breakfast" then 1
  else if mealType = "lunch" then 2
  else if mealType = "dinner" then 3
  else if mealType = "snack" then 4
  else 99

def getMealPlansByDate (s : State) (userId : Nat) (date : Nat) :
    List MealPlan :=
  let targetDate := truncDay date
  ((mapValues s.mealPlans).filter
    (fun plan =>
      plan.userId == userId && truncDay plan.plannedDate == targetDate)).mergeSort
    (fun a b => decide (mealTypeOrd a.mealType ≤ mealTypeOrd b.mealType))

def createMealPlan (s : State) (insertMealPlan : InsertMealPlan) (now : Nat) :
    MealPlan × State :=
  let id := s.mealPlanCurrentId
  let mealPlan : MealPlan :=
    { id := id
      userId := insertMealPlan.userId
      recipeId := insertMealPlan.recipeId
      plannedDate := insertMealPlan.plannedDate
      mealType := insertMealPlan.mealType
      createdAt := now
      notes := jsOrNullS insertMealPlan.notes }
  (mealPlan,
    { s with
      mealPlans := mapSet s.mealPlans id mealPlan
      mealPlanCurrentId := id + 1 })

def updateMealPlan (s : State) (id : Nat) (mealPlanUpdate : MealPlanUpdate) :
    Option MealPlan × State :=
  match mapGet s.mealPlans id with
  | none => (none, s)
  | some existingMealPlan =>
    let updatedMealPlan := applyMealPlanUpdate existingMealPlan mealPlanUpdate
    (some updatedMealPlan,
      { s with mealPlans := mapSet s.mealPlans id updatedMealPlan })

def deleteMealPlan (s : State) (id : Nat) : Bool × State :=
  (mapHas s.mealPlans id, { s with mealPlans := mapDelete s.mealPlans id })

/- Activity log methods. -/

def getActivityLogs (s : State) (userId : Nat) : List ActivityLog :=
  ((mapValues s.activityLogs).filter
    (fun log => log.userId == userId)).mergeSort
    (fun a b => decide (b.createdAt ≤ a.createdAt))

def createActivityLog (s : State) (insertLog : InsertActivityLog) (now : Nat) :
    ActivityLog × State :=
  let id := s.activityLogCurrentId
  let activityLog : ActivityLog :=
    { id := id
      userId := insertLog.userId
      action := insertLog.action
      createdAt := now
      entityId := jsOrNullI insertLog.entityId
      entityType := jsOrNullS insertLog.entityType
      details := jsOrNullS insertLog.details }
  (activityLog,
    { s with
      activityLogs := mapSet s.activityLogs id activityLog
      activityLogCurrentId := id + 1 })

/-- The favorites-map representation invariant: every binding's key is
the composite key of its value, and the keys are pairwise distinct. -/
def FavInv (fs : List (String × Favorite)) : Prop :=
  (∀ p ∈ fs, p.1 = favKey p.2.userId p.2.recipeId) ∧
    (fs.map (fun p => p.1)).Nodup

/-- States reachable from the fresh store by any sequence of mutating
storage operations (each `now` timestamp arbitrary). -/
inductive Reachable : State → Prop
  | init : Reachable initState
  | createUser (s : State) (ins : InsertUser) (now : Nat) :
      Reachable s → Reachable (createUser s ins now).2
  | updateUser (s : State) (id : Nat) (upd : UserUpdate) :
      Reachable s → Reachable (updateUser s id upd).2
  | createRecipe (s : State) (ins : InsertRecipe) (now : Nat) :
      Reachable s → Reachable (createRecipe s ins now).2
  | updateRecipe (s : State) (id : Nat) (upd : RecipeUpdate) :
      Reachable s → Reachable (updateRecipe s id upd).2
  | deleteRecipe (s : State) (id : Nat) :
      Reachable s → Reachable (deleteRecipe s id).2
  | createIngredient (s : State) (ins : InsertIngredient) :
      Reachable s → Reachable (createIngredient s ins).2
  | createInstruction (s : State) (ins : InsertInstruction) :
      Reachable s → Reachable (createInstruction s ins).2
  | createReview (s : State) (ins : InsertReview) (now : Nat) :
      Reachable s → Reachable (createReview s ins now).2
  | updateReview (s : State) (id : Nat) (upd : ReviewUpdate) :
      Reachable s → Reachable (updateReview s id upd).2
  | deleteReview (s : State) (id : Nat) :
      Reachable s → Reachable (deleteReview s id).2
  | addFavorite (s : State) (ins : InsertFavorite) (now : Nat) :
      Reachable s → Reachable (addFavorite s ins now).2
  | removeFavorite (s : State) (userId recipeId : Nat) :
      Reachable s → Reachable (removeFavorite s userId recipeId).2
  | addToShoppingList (s : State) (ins : InsertShoppingListItem) (now : Nat) :
      Reachable s → Reachable (addToShoppingList s ins now).2
  | updateShoppingListItem (s : State) (id : Nat)
      (upd : ShoppingListItemUpdate) :
      Reachable s → Reachable (updateShoppingListItem s id upd).2
  | deleteShoppingListItem (s : State) (id : Nat) :
      Reachable s → Reachable (deleteShoppingListItem s id).2
  | clearShoppingList (s : State) (userId : Nat) :
      Reachable s → Reachable (clearShoppingList s userId).2
  | createMealPlan (s : State) (ins : InsertMealPlan) (now : Nat) :
      Reachable s → Reachable (createMealPlan s ins now).2
  | updateMealPlan (s : State) (id : Nat) (upd : MealPlanUpdate) :
      Reachable s → Reachable (updateMealPlan s id upd).2
  | deleteMealPlan (s : State) (id : Nat) :
      Reachable s → Reachable (deleteMealPlan s id).2
  | createActivityLog (s : State) (ins : InsertActivityLog) (now : Nat) :
      Reachable s → Reachable (createActivityLog s ins now).2

/- A small concrete store, built through the operations themselves, used
to exercise the theorems below on closed inputs. -/

def demoUserIns : InsertUser :=
  { username := "Alice", email := "alice@example.com", name := "Alice A"
    password := "secret123", bio := none, avatarUrl := none }

def demoUserIns2 : InsertUser :=
  { username := "bob", email := "bob@example.com", name := "Bob B"
    password := "hunter22", bio := some "cook", avatarUrl := none }

def demoRecipeIns (title : String) (tags : Option (List String)) :
    InsertRecipe :=
  { title := title, description := "d", imageUrl := "img", prepTime := 10
    cookTime := 20, difficulty := "Easy", calories := none, protein := none
    fats := none, carbs := none, servings := some 2, rating := none
    userId := 1, source := none, cookingTips := none, tags := tags }

def demoState1 : State :=
  (createUser (createUser initState demoUserIns 1000).2 demoUserIns2 1500).2

def demoState2 : State :=
  (createRecipe demoState1 (demoRecipeIns "Soup" (some ["Vegan", "Quick"])) 2000).2

def demoState3 : State :=
  (createRecipe demoState2 (demoRecipeIns "Stew" (some ["Quick"])) 3000).2

def demoState4 : State :=
  (createRecipe demoState3 (demoRecipeIns "Cake" none) 4000).2

def demoState5 : State :=
  (createReview demoState4 { userId := 1, recipeId := 1, rating := 4, comment := "good" } 5000).2

def demoState6 : State :=
  (createReview demoState5 { userId := 2, recipeId := 1, rating := 5, comment := "great" } 6000).2

def demoState7 : State :=
  (createReview demoState6 { userId := 2, recipeId := 2, rating := 3, comment := "ok" } 7000).2

def demoState8 : State :=
  (createMealPlan demoState7
    { userId := 1, recipeId := 1, plannedDate := 86400000 * 10 + 3600000
      mealType := "dinner", notes := none } 8000).2

def demoState9 : State :=
  (createMealPlan demoState8
    { userId := 1, recipeId := 2, plannedDate := 86400000 * 10 + 7200000
      mealType := "breakfast", notes := none } 9000).2

def demoAlice : User :=
  (createUser initState demoUserIns 1000).1

/-- An insert whose username is already taken case-insensitively
(`"Alice"` is stored) and whose email is fresh. -/
def dupUserIns : InsertUser :=
  { username := "ALICE", email := "alice2@example.com", name := "A Two"
    password := "pw2", bio := none, avatarUrl := none }

def demoState10 : State :=
  (addFavorite demoState9 { userId := 1, recipeId := 1 } 10000).2

def demoState11 : State :=
  (addFavorite demoState10 { userId := 1, recipeId := 2 } 11000).2

def demoState12 : State :=
  (addFavorite demoState11 { userId := 1, recipeId := 1 } 12000).2

/- Basic facts about the `Map` model. -/

theorem mapHas_mapSet_self {κ β : Type} [DecidableEq κ] (m : List (κ × β))
    (k : κ) (v : β) : mapHas (mapSet m k v) k = true := by
  unfold mapSet
  cases h : mapHas m k with
  | true =>
    simp only [if_true]
    unfold mapHas at h ⊢
    simp only [List.any_eq_true, decide_eq_true_eq] at h ⊢
    obtain ⟨p, hp, hpk⟩ := h
    refine ⟨(k, v), List.mem_map.mpr ⟨p, hp, ?_⟩, rfl⟩
    simp [hpk]
  | false =>
    simp only [Bool.false_eq_true, if_false]
    unfold mapHas
    simp [List.any_append]

theorem mapHas_mapDelete_self {κ β : Type} [DecidableEq κ] (m : List (κ × β))
    (k : κ) : mapHas (mapDelete m k) k = false := by
  unfold mapHas mapDelete
  rw [List.any_eq_false]
  intro p hp
  rw [List.mem_filter] at hp
  have h2 := hp.2
  simp only [decide_eq_true_eq] at h2
  simpa using h2

theorem mapDelete_of_not_has {κ β : Type} [DecidableEq κ] (m : List (κ × β))
    (k : κ) (h : mapHas m k = false) : mapDelete m k = m := by
  unfold mapHas at h
  unfold mapDelete
  rw [List.filter_eq_self]
  intro p hp
  rw [List.any_eq_false] at h
  simpa using h p hp

theorem mapGet_eq_none_of_not_has {κ β : Type} [DecidableEq κ]
    (m : List (κ × β)) (k : κ) (h : mapHas m k = false) : mapGet m k = none := by
  unfold mapHas at h
  unfold mapGet
  have hfind : List.find? (fun p => decide (p.1 = k)) m = none := by
    rw [List.find?_eq_none]
    intro p hp
    rw [List.any_eq_false] at h
    simpa using h p hp
  rw [hfind]
  rfl

theorem length_mapSet_of_has {κ β : Type} [DecidableEq κ] (m : List (κ × β))
    (k : κ) (v : β) (h : mapHas m k = true) :
    (mapSet m k v).length = m.length := by
  unfold mapSet
  simp [h]

/-- C6: for every store state, every user `u` and recipe `r`:
immediately after `addFavorite(u, r)` the pair is reported favorite;
after a subsequent `removeFavorite(u, r)` it is not; and a second
`removeFavorite(u, r)` in a row returns `false` (no error). -/
theorem favorite_lifecycle (s : State) (u r now : Nat) :
    isFavorite (addFavorite s ⟨u, r⟩ now).2 u r = true ∧
    isFavorite (removeFavorite (addFavorite s ⟨u, r⟩ now).2 u r).2 u r = false ∧
    (removeFavorite (removeFavorite s u r).2 u r).1 = false := by
  refine ⟨?_, ?_, ?_⟩
  · exact mapHas_mapSet_self s.favorites (favKey u r) _
  · exact mapHas_mapDelete_self _ (favKey u r)
  · exact mapHas_mapDelete_self s.favorites (favKey u r)

/-- C4: every single-entity update or delete invoked with an id that is
not in the store returns the not-found sentinel (`none` for updates,
`false` for deletes), never throws, and leaves the entire store state
unchanged. -/
theorem missing_id_ops_noop (s : State) (id : Nat) :
    (mapHas s.users id = false →
      ∀ upd, updateUser s id upd = (none, s)) ∧
    (mapHas s.recipes id = false →
      (∀ upd, updateRecipe s id upd = (none, s)) ∧
        deleteRecipe s id = (false, s)) ∧
    (mapHas s.reviews id = false →
      (∀ upd, updateReview s id upd = (none, s)) ∧
        deleteReview s id = (false, s)) ∧
    (mapHas s.shoppingItems id = false →
      (∀ upd, updateShoppingListItem s id upd = (none, s)) ∧
        deleteShoppingListItem s id = (false, s)) ∧
    (mapHas s.mealPlans id = false →
      (∀ upd, updateMealPlan s id upd = (none, s)) ∧
        deleteMealPlan s id = (false, s)) := by
  refine ⟨fun h upd => ?_, fun h => ⟨fun upd => ?_, ?_⟩,
    fun h => ⟨fun upd => ?_, ?_⟩,
    fun h => ⟨fun upd => ?_, ?_⟩, fun h => ⟨fun upd => ?_, ?_⟩⟩
  · unfold updateUser
    rw [mapGet_eq_none_of_not_has _ _ h]
  · unfold updateRecipe
    rw [mapGet_eq_none_of_not_has _ _ h]
  · unfold deleteRecipe
    rw [mapDelete_of_not_has _ _ h, h]
  · unfold updateReview
    rw [mapGet_eq_none_of_not_has _ _ h]
  · unfold deleteReview
    rw [mapDelete_of_not_has _ _ h, h]
  · unfold updateShoppingListItem
    rw [mapGet_eq_none_of_not_has _ _ h]
  · unfold deleteShoppingListItem
    rw [mapDelete_of_not_has _ _ h, h]
  · unfold updateMealPlan
    rw [mapGet_eq_none_of_not_has _ _ h]
  · unfold deleteMealPlan
    rw [mapDelete_of_not_has _ _ h, h]

/-- Witness for C4 at a concrete store and a concrete absent id. -/
theorem missing_id_ops_noop_witness :
    updateUser demoState9 77 {} = (none, demoState9) ∧
    updateRecipe demoState9 77 {} = (none, demoState9) ∧
    deleteRecipe demoState9 77 = (false, demoState9) ∧
    updateReview demoState9 77 {} = (none, demoState9) ∧
    deleteReview demoState9 77 = (false, demoState9) ∧
    updateShoppingListItem demoState9 77 {} = (none, demoState9) ∧
    deleteShoppingListItem demoState9 77 = (false, demoState9) ∧
    updateMealPlan demoState9 77 {} = (none, demoState9) ∧
    deleteMealPlan demoState9 77 = (false, demoState9) := by
  have h := missing_id_ops_noop demoState9 77
  exact ⟨h.1 (by decide) {},
    (h.2.1 (by decide)).1 {}, (h.2.1 (by decide)).2,
    (h.2.2.1 (by decide)).1 {}, (h.2.2.1 (by decide)).2,
    (h.2.2.2.1 (by decide)).1 {}, (h.2.2.2.1 (by decide)).2,
    (h.2.2.2.2 (by decide)).1 {}, (h.2.2.2.2 (by decide)).2⟩

/-- C9: `deleteRecipe` removes only the recipe record itself and does not
cascade: the ingredient, instruction, review, favorite, shopping-list and
meal-plan collections are untouched, and in particular
`getIngredientsByRecipe`, `getInstructionsByRecipe` and
`getReviewsByRecipe` for the deleted id return the same lists before and
after. -/
theorem deleteRecipe_no_cascade (s : State) (id : Nat) :
    (deleteRecipe s id).2.ingredients = s.ingredients ∧
    (deleteRecipe s id).2.instructions = s.instructions ∧
    (deleteRecipe s id).2.reviews = s.reviews ∧
    (deleteRecipe s id).2.favorites = s.favorites ∧
    (deleteRecipe s id).2.shoppingItems = s.shoppingItems ∧
    (deleteRecipe s id).2.mealPlans = s.mealPlans ∧
    getIngredientsByRecipe (deleteRecipe s id).2 id =
      getIngredientsByRecipe s id ∧
    getInstructionsByRecipe (deleteRecipe s id).2 id =
      getInstructionsByRecipe s id ∧
    getReviewsByRecipe (deleteRecipe s id).2 id = getReviewsByRecipe s id :=
  ⟨rfl, rfl, rfl, rfl, rfl, rfl, rfl, rfl, rfl⟩

/-- C10: `getRecipesByTag(tag, 0)` returns all recipes whose tags contain
`tag` — a limit of 0 behaves exactly like an omitted limit — while a
positive limit truncates the matches, kept in insertion order, to the
first `limit` entries. -/
theorem getRecipesByTag_zero_limit (s : State) (tag : String) :
    getRecipesByTag s tag (some 0) =
      (mapValues s.recipes).filter (fun recipe => hasTag recipe tag) ∧
    getRecipesByTag s tag (some 0) = getRecipesByTag s tag none ∧
    (∀ n : Nat, 0 < n → getRecipesByTag s tag (some n) =
      ((mapValues s.recipes).filter (fun recipe => hasTag recipe tag)).take n) ∧
    (∀ r : Recipe, r ∈ getRecipesByTag s tag (some 0) ↔
      r ∈ mapValues s.recipes ∧ hasTag r tag = true) := by
  refine ⟨?_, ?_, ?_, ?_⟩
  · simp [getRecipesByTag]
  · simp [getRecipesByTag]
  · intro n hn
    unfold getRecipesByTag
    simp [Nat.pos_iff_ne_zero.mp hn]
  · intro r
    simp [getRecipesByTag, List.mem_filter]

/-- Witness for C10 on the concrete store: tag `"Quick"` matches two
recipes; limit 0 equals omitted limit; limit 1 truncates. -/
theorem getRecipesByTag_zero_limit_witness :
    getRecipesByTag demoState9 "Quick" (some 0) =
      getRecipesByTag demoState9 "Quick" none ∧
    (getRecipesByTag demoState9 "Quick" (some 0)).length = 2 ∧
    getRecipesByTag demoState9 "Quick" (some 1) =
      (getRecipesByTag demoState9 "Quick" (some 0)).take 1 := by
  have h := getRecipesByTag_zero_limit demoState9 "Quick"
  refine ⟨h.2.1, ?_, ?_⟩
  · rw [h.1]
    decide
  · rw [h.2.2.1 1 (by decide), h.1]

theorem foldl_add_rating (l : List Review) (init : ℤ) :
    l.foldl (fun total review => total + review.rating) init =
      init + (l.map (fun review => review.rating)).sum := by
  induction l generalizing init with
  | nil => simp
  | cons review l ih => simp [ih, add_assoc]

/-- C1: for a recipe with `n ≥ 1` reviews, `getAverageRating` returns the
arithmetic mean of the ratings rounded to one decimal place; for a recipe
with zero reviews it returns the absent value, never zero and never an
error. -/
theorem getAverageRating_spec (s : State) (recipeId : Nat) :
    (((mapValues s.reviews).filter
        (fun review => review.recipeId == recipeId)).map
        (fun review => review.rating) = [] →
      getAverageRating s recipeId = none) ∧
    (((mapValues s.reviews).filter
        (fun review => review.recipeId == recipeId)).map
        (fun review => review.rating) ≠ [] →
      getAverageRating s recipeId =
        some (round1
          ((((((mapValues s.reviews).filter
                (fun review => review.recipeId == recipeId)).map
                (fun review => review.rating)).sum : ℤ) : ℚ) /
            ((((mapValues s.reviews).filter
                (fun review => review.recipeId == recipeId)).map
                (fun review => review.rating)).length : ℚ)))) := by
  have hrev : getReviewsByRecipe s recipeId =
      ((mapValues s.reviews).filter
        (fun review => review.recipeId == recipeId)).mergeSort
        (fun a b => decide (b.createdAt ≤ a.createdAt)) := rfl
  have hperm : List.Perm (getReviewsByRecipe s recipeId)
      ((mapValues s.reviews).filter (fun review => review.recipeId == recipeId)) := by
    rw [hrev]
    exact List.mergeSort_perm _ _
  constructor
  · intro h
    have hfl0 : (mapValues s.reviews).filter
        (fun review => review.recipeId == recipeId) = [] :=
      List.map_eq_nil_iff.mp h
    simp only [getAverageRating]
    rw [hrev, hfl0]
    simp
  · intro h
    have hfl0 : (mapValues s.reviews).filter
        (fun review => review.recipeId == recipeId) ≠ [] := by
      intro h0
      apply h
      rw [h0]
      rfl
    have hlen : (getReviewsByRecipe s recipeId).length =
        ((mapValues s.reviews).filter
          (fun review => review.recipeId == recipeId)).length :=
      hperm.length_eq
    have hlen0 : ¬((getReviewsByRecipe s recipeId).length = 0) := by
      rw [hlen]
      exact fun h0 => hfl0 (List.length_eq_zero.mp h0)
    simp only [getAverageRating]
    rw [if_neg hlen0, foldl_add_rating, zero_add,
      List.Perm.sum_eq (hperm.map (fun review => review.rating)), hlen]
    simp

/-- Witness for C1 on the concrete store: recipe 1 has reviews rated 4
and 5, mean 4.5; recipe 3 has no reviews. -/
theorem getAverageRating_spec_witness :
    getAverageRating demoState9 1 = some (9 / 2) ∧
    getAverageRating demoState9 3 = none := by
  have h1 := getAverageRating_spec demoState9 1
  have h3 := getAverageRating_spec demoState9 3
  constructor
  · rw [h1.2 (by decide)]
    have hl : ((mapValues demoState9.reviews).filter
        (fun review => review.recipeId == 1)).map
        (fun review => review.rating) = [4, 5] := by decide
    rw [hl]
    unfold round1
    norm_num [round_eq]
  · exact h3.1 (by decide)

theorem find?_eq_some_of_unique {α : Type} (p : α → Bool) :
    ∀ (l : List α) (a : α), a ∈ l → p a = true →
      (∀ b ∈ l, p b = true → b = a) → l.find? p = some a
  | [], a, ha, _, _ => absurd ha (List.not_mem_nil a)
  | x :: l, a, ha, hpa, huniq => by
    by_cases hx : p x = true
    · rw [List.find?_cons_of_pos _ hx, huniq x (List.mem_cons_self x l) hx]
    · rw [List.find?_cons_of_neg _ hx]
      rcases List.mem_cons.mp ha with h | h
      · exact absurd (h ▸ hpa) hx
      · exact find?_eq_some_of_unique p l a h hpa
          (fun b hb hpb => huniq b (List.mem_cons_of_mem x hb) hpb)

/-- C8: for a stored user whose username (resp. email) is unique
case-insensitively, `getUserByUsername` (resp. `getUserByEmail`) finds
the user from any query that matches up to case; when no user matches
case-insensitively, both return the absent value rather than throwing. -/
theorem user_lookup_case_insensitive (s : State) (q : String) (u : User) :
    (u ∈ mapValues s.users → jsToLower q = jsToLower u.username →
      (∀ v ∈ mapValues s.users,
        jsToLower v.username = jsToLower u.username → v = u) →
      getUserByUsername s q = some u) ∧
    (u ∈ mapValues s.users → jsToLower q = jsToLower u.email →
      (∀ v ∈ mapValues s.users, jsToLower v.email = jsToLower u.email → v = u) →
      getUserByEmail s q = some u) ∧
    ((∀ v ∈ mapValues s.users, jsToLower v.username ≠ jsToLower q) →
      getUserByUsername s q = none) ∧
    ((∀ v ∈ mapValues s.users, jsToLower v.email ≠ jsToLower q) →
      getUserByEmail s q = none) := by
  refine ⟨fun hm hq huniq => ?_, fun hm hq huniq => ?_,
    fun hnone => ?_, fun hnone => ?_⟩
  · unfold getUserByUsername
    apply find?_eq_some_of_unique _ _ _ hm
    · simp [hq]
    · intro b hb hpb
      have hb2 : jsToLower b.username = jsToLower q := by simpa using hpb
      exact huniq b hb (hb2.trans hq)
  · unfold getUserByEmail
    apply find?_eq_some_of_unique _ _ _ hm
    · simp [hq]
    · intro b hb hpb
      have hb2 : jsToLower b.email = jsToLower q := by simpa using hpb
      exact huniq b hb (hb2.trans hq)
  · unfold getUserByUsername
    rw [List.find?_eq_none]
    intro v hv
    simpa using hnone v hv
  · unfold getUserByEmail
    rw [List.find?_eq_none]
    intro v hv
    simpa using hnone v hv

/-- Witness for C8: `"Alice"` is stored; the all-caps queries find her,
an unknown name yields the absent value. -/
theorem user_lookup_case_insensitive_witness :
    getUserByUsername demoState9 "ALICE" = some demoAlice ∧
    getUserByEmail demoState9 "ALICE@EXAMPLE.COM" = some demoAlice ∧
    getUserByUsername demoState9 "carol" = none := by
  have h1 := user_lookup_case_insensitive demoState9 "ALICE" demoAlice
  have h2 := user_lookup_case_insensitive demoState9 "ALICE@EXAMPLE.COM" demoAlice
  have h3 := user_lookup_case_insensitive demoState9 "carol" demoAlice
  exact ⟨h1.1 (by decide) (by decide) (by decide),
    h2.2.1 (by decide) (by decide) (by decide),
    h3.2.2.1 (by decide)⟩

/-- C3, counterexample to the claim as stated: `createUser` does not fail
with a `ValidationError` when the username is already taken
case-insensitively — it inserts a second record and returns it. -/
theorem createUser_duplicate_counterexample :
    (getUserByUsername demoState9 "ALICE").isSome = true ∧
    (createUser demoState9 dupUserIns 9999).2.users.length =
      demoState9.users.length + 1 ∧
    (createUser demoState9 dupUserIns 9999).1.username = "ALICE" := by
  decide

theorem mapSet_of_not_has {κ β : Type} [DecidableEq κ] (m : List (κ × β))
    (k : κ) (v : β) (h : mapHas m k = false) :
    mapSet m k v = m ++ [(k, v)] := by
  unfold mapSet
  rw [h]
  simp

/-- C3 (amended): `createUser` never rejects a duplicate; for every
store whose id counter is fresh it unconditionally appends a new user
record with the given username — uniqueness of username/email is the
calling handler's responsibility, not `createUser`'s. -/
theorem createUser_always_inserts (s : State) (ins : InsertUser) (now : Nat)
    (hid : mapHas s.users s.userCurrentId = false) :
    (createUser s ins now).2.users.length = s.users.length + 1 ∧
    (createUser s ins now).1.username = ins.username ∧
    (createUser s ins now).2.users =
      s.users ++ [(s.userCurrentId, (createUser s ins now).1)] := by
  refine ⟨?_, rfl, ?_⟩
  · show (mapSet s.users s.userCurrentId _).length = s.users.length + 1
    rw [mapSet_of_not_has _ _ _ hid]
    simp
  · show mapSet s.users s.userCurrentId _ = _
    rw [mapSet_of_not_has _ _ _ hid]
    exact rfl

/-- Witness for C3 (amended) at the concrete store: inserting a taken
username succeeds and appends. -/
theorem createUser_always_inserts_witness :
    (createUser demoState9 dupUserIns 9999).2.users.length =
      demoState9.users.length + 1 ∧
    (createUser demoState9 dupUserIns 9999).1.username =
      dupUserIns.username ∧
    (createUser demoState9 dupUserIns 9999).2.users =
      demoState9.users ++
        [(demoState9.userCurrentId, (createUser demoState9 dupUserIns 9999).1)] :=
  createUser_always_inserts demoState9 dupUserIns 9999 (by decide)

/-- C7: `getMealPlansByDate(u, d)` returns exactly the meal plans of user
`u` whose planned date, truncated to midnight, equals the truncated
target date, sorted ascending by the mealType ordinal
breakfast:1, lunch:2, dinner:3, snack:4, any other string ranking 99 —
so breakfast comes before lunch before dinner before snack regardless of
insertion order. -/
theorem getMealPlansByDate_spec (s : State) (u d : Nat) :
    List.Perm (getMealPlansByDate s u d)
      ((mapValues s.mealPlans).filter
        (fun plan =>
          plan.userId == u && truncDay plan.plannedDate == truncDay d)) ∧
    (∀ p : MealPlan, p ∈ getMealPlansByDate s u d ↔
      p ∈ mapValues s.mealPlans ∧ p.userId = u ∧
        truncDay p.plannedDate = truncDay d) ∧
    (getMealPlansByDate s u d).Pairwise
      (fun a b => mealTypeOrd a.mealType ≤ mealTypeOrd b.mealType) ∧
    mealTypeOrd "breakfast" = 1 ∧ mealTypeOrd "lunch" = 2 ∧
    mealTypeOrd "dinner" = 3 ∧ mealTypeOrd "snack" = 4 ∧
    (∀ mt : String,
      mt ∉ (["breakfast", "lunch", "dinner", "snack"] : List String) →
      mealTypeOrd mt = 99) := by
  have hperm : List.Perm (getMealPlansByDate s u d)
      ((mapValues s.mealPlans).filter
        (fun plan =>
          plan.userId == u && truncDay plan.plannedDate == truncDay d)) :=
    List.mergeSort_perm _ _
  refine ⟨hperm, ?_, ?_, rfl, rfl, rfl, rfl, ?_⟩
  · intro p
    rw [hperm.mem_iff, List.mem_filter]
    simp
  · have htrans : ∀ a b c : MealPlan,
        (decide (mealTypeOrd a.mealType ≤ mealTypeOrd b.mealType)) = true →
        (decide (mealTypeOrd b.mealType ≤ mealTypeOrd c.mealType)) = true →
        (decide (mealTypeOrd a.mealType ≤ mealTypeOrd c.mealType)) = true := by
      intro a b c hab hbc
      simp only [decide_eq_true_eq] at hab hbc ⊢
      exact le_trans hab hbc
    have htotal : ∀ a b : MealPlan,
        ((decide (mealTypeOrd a.mealType ≤ mealTypeOrd b.mealType)) ||
          (decide (mealTypeOrd b.mealType ≤ mealTypeOrd a.mealType))) = true := by
      intro a b
      simp only [Bool.or_eq_true, decide_eq_true_eq]
      exact Nat.le_total _ _
    have hsorted := List.sorted_mergeSort htrans htotal
      ((mapValues s.mealPlans).filter
        (fun plan =>
          plan.userId == u && truncDay plan.plannedDate == truncDay d))
    refine hsorted.imp ?_
    intro a b hab
    simpa using hab
  · intro mt hmt
    simp only [List.mem_cons, List.not_mem_nil, or_false] at hmt
    push_neg at hmt
    obtain ⟨h1, h2, h3, h4⟩ := hmt
    simp [mealTypeOrd, h1, h2, h3, h4]

/-- Witness for C7 on the concrete store: user 1 has a dinner plan
inserted before a breakfast plan on day 10; the result has both plans
and is sorted by meal-type ordinal. -/
theorem getMealPlansByDate_spec_witness :
    (getMealPlansByDate demoState9 1 (86400000 * 10)).length = 2 ∧
    (getMealPlansByDate demoState9 1 (86400000 * 10)).Pairwise
      (fun a b => mealTypeOrd a.mealType ≤ mealTypeOrd b.mealType) ∧
    (createMealPlan demoState8
        { userId := 1, recipeId := 2, plannedDate := 86400000 * 10 + 7200000
          mealType := "breakfast", notes := none } 9000).1 ∈
      getMealPlansByDate demoState9 1 (86400000 * 10) := by
  have h := getMealPlansByDate_spec demoState9 1 (86400000 * 10)
  refine ⟨?_, h.2.2.1, ?_⟩
  · rw [h.1.length_eq]
    decide
  · rw [h.2.1]
    refine ⟨by decide, by decide, by decide⟩

theorem mem_mapSet {κ β : Type} [DecidableEq κ] (m : List (κ × β)) (k : κ)
    (v : β) (p : κ × β) (hp : p ∈ mapSet m k v) : p ∈ m ∨ p = (k, v) := by
  unfold mapSet at hp
  by_cases h : mapHas m k = true
  · rw [if_pos h] at hp
    obtain ⟨q, hq, hq2⟩ := List.mem_map.mp hp
    by_cases hk : q.1 = k
    · right
      rw [← hq2, if_pos hk]
    · left
      rw [← hq2, if_neg hk]
      exact hq
  · rw [if_neg h] at hp
    rcases List.mem_append.mp hp with h1 | h1
    · exact Or.inl h1
    · exact Or.inr (List.mem_singleton.mp h1)

theorem mapHas_mapSet_of_has {κ β : Type} [DecidableEq κ] (m : List (κ × β))
    (k k' : κ) (v : β) (h : mapHas m k' = true) :
    mapHas (mapSet m k v) k' = true := by
  unfold mapSet
  by_cases hk : mapHas m k = true
  · rw [if_pos hk]
    unfold mapHas at h ⊢
    simp only [List.any_eq_true, decide_eq_true_eq] at h ⊢
    obtain ⟨p, hp, hpk⟩ := h
    by_cases hpk2 : p.1 = k
    · refine ⟨(k, v), List.mem_map.mpr ⟨p, hp, ?_⟩, ?_⟩
      · rw [if_pos hpk2]
      · show k = k'
        rw [← hpk2, hpk]
    · refine ⟨p, List.mem_map.mpr ⟨p, hp, ?_⟩, hpk⟩
      rw [if_neg hpk2]
  · rw [if_neg hk]
    unfold mapHas at h ⊢
    simp [List.any_append, h]

theorem ratingsMap_values (f : Nat → ℚ) :
    ∀ (l : List Recipe) (acc : List (Nat × ℚ)),
      (∀ kv ∈ acc, kv.2 = f kv.1) →
      ∀ kv ∈ l.foldl (fun m recipe => mapSet m recipe.id (f recipe.id)) acc,
        kv.2 = f kv.1
  | [], _, hacc, kv, hkv => hacc kv hkv
  | r :: l, acc, hacc, kv, hkv => by
    refine ratingsMap_values f l (mapSet acc r.id (f r.id)) ?_ kv hkv
    intro q hq
    rcases mem_mapSet _ _ _ _ hq with h | h
    · exact hacc q h
    · rw [h]

theorem ratingsMap_has (f : Nat → ℚ) :
    ∀ (l : List Recipe) (acc : List (Nat × ℚ)) (k : Nat),
      (mapHas acc k = true ∨ ∃ r ∈ l, r.id = k) →
      mapHas (l.foldl (fun m recipe => mapSet m recipe.id (f recipe.id)) acc)
        k = true
  | [], _, _, h => by
    rcases h with h | ⟨r, hr, _⟩
    · exact h
    · exact absurd hr (List.not_mem_nil r)
  | r :: l, acc, k, h => by
    apply ratingsMap_has f l (mapSet acc r.id (f r.id)) k
    rcases h with h | ⟨q, hq, hqk⟩
    · exact Or.inl (mapHas_mapSet_of_has _ _ _ _ h)
    · rcases List.mem_cons.mp hq with h1 | h1
      · subst h1
        exact Or.inl (by rw [← hqk]; exact mapHas_mapSet_self acc q.id (f q.id))
      · exact Or.inr ⟨q, h1, hqk⟩

theorem mapGet_of_has_of_all {κ β : Type} [DecidableEq κ] (m : List (κ × β))
    (k : κ) (f : κ → β) (hall : ∀ kv ∈ m, kv.2 = f kv.1)
    (hhas : mapHas m k = true) : mapGet m k = some (f k) := by
  unfold mapHas at hhas
  unfold mapGet
  have hsome : (m.find? (fun p => decide (p.1 = k))).isSome := by
    rw [List.find?_isSome]
    simpa [List.any_eq_true] using hhas
  obtain ⟨p, hp⟩ := Option.isSome_iff_exists.mp hsome
  have hmem := List.mem_of_find?_eq_some hp
  have hkey : p.1 = k := by simpa using List.find?_some hp
  rw [hp]
  show some p.2 = some (f k)
  rw [hall p hmem, hkey]

/-- C2: `getTopRecipes(limit)` is the first `limit` entries of a
reordering of the stored recipes that is sorted descending by the
`getAverageRating`-based score (zero-review recipes scoring 0) and that
breaks ties stably by insertion order. -/
theorem getTopRecipes_spec (s : State) (limit : Nat) :
    ∃ l : List Recipe,
      List.Perm l (mapValues s.recipes) ∧
      l.Pairwise (fun a b =>
        (getAverageRating s b.id).getD 0 ≤ (getAverageRating s a.id).getD 0) ∧
      (∀ a b : Recipe, List.Sublist [a, b] (mapValues s.recipes) →
        (getAverageRating s b.id).getD 0 ≤ (getAverageRating s a.id).getD 0 →
        List.Sublist [a, b] l) ∧
      getTopRecipes s limit = l.take limit ∧
      (∀ r : Recipe, getReviewsByRecipe s r.id = [] →
        (getAverageRating s r.id).getD 0 = 0) := by
  have hM : ∀ r ∈ mapValues s.recipes,
      mapGet
        ((mapValues s.recipes).foldl
          (fun m recipe =>
            mapSet m recipe.id ((getAverageRating s recipe.id).getD 0))
          ([] : List (Nat × ℚ)))
        r.id = some ((getAverageRating s r.id).getD 0) := by
    intro r hr
    refine mapGet_of_has_of_all _ _
      (fun id => (getAverageRating s id).getD 0) ?_ ?_
    · exact ratingsMap_values (fun id => (getAverageRating s id).getD 0)
        (mapValues s.recipes) [] (fun kv h => absurd h (List.not_mem_nil kv))
    · exact ratingsMap_has (fun id => (getAverageRating s id).getD 0)
        (mapValues s.recipes) [] r.id (Or.inr ⟨r, hr, rfl⟩)
  have htrans : ∀ a b c : Recipe,
      (decide ((mapGet ((mapValues s.recipes).foldl
          (fun m recipe =>
            mapSet m recipe.id ((getAverageRating s recipe.id).getD 0))
          ([] : List (Nat × ℚ))) b.id).getD 0 ≤
        (mapGet ((mapValues s.recipes).foldl
          (fun m recipe =>
            mapSet m recipe.id ((getAverageRating s recipe.id).getD 0))
          ([] : List (Nat × ℚ))) a.id).getD 0)) = true →
      (decide ((mapGet ((mapValues s.recipes).foldl
          (fun m recipe =>
            mapSet m recipe.id ((getAverageRating s recipe.id).getD 0))
          ([] : List (Nat × ℚ))) c.id).getD 0 ≤
        (mapGet ((mapValues s.recipes).foldl
          (fun m recipe =>
            mapSet m recipe.id ((getAverageRating s recipe.id).getD 0))
          ([] : List (Nat × ℚ))) b.id).getD 0)) = true →
      (decide ((mapGet ((mapValues s.recipes).foldl
          (fun m recipe =>
            mapSet m recipe.id ((getAverageRating s recipe.id).getD 0))
          ([] : List (Nat × ℚ))) c.id).getD 0 ≤
        (mapGet ((mapValues s.recipes).foldl
          (fun m recipe =>
            mapSet m recipe.id ((getAverageRating s recipe.id).getD 0))
          ([] : List (Nat × ℚ))) a.id).getD 0)) = true := by
    intro a b c hab hbc
    simp only [decide_eq_true_eq] at hab hbc ⊢
    exact le_trans hbc hab
  have htotal : ∀ a b : Recipe,
      ((decide ((mapGet ((mapValues s.recipes).foldl
          (fun m recipe =>
            mapSet m recipe.id ((getAverageRating s recipe.id).getD 0))
          ([] : List (Nat × ℚ))) b.id).getD 0 ≤
        (mapGet ((mapValues s.recipes).foldl
          (fun m recipe =>
            mapSet m recipe.id ((getAverageRating s recipe.id).getD 0))
          ([] : List (Nat × ℚ))) a.id).getD 0)) ||
      (decide ((mapGet ((mapValues s.recipes).foldl
          (fun m recipe =>
            mapSet m recipe.id ((getAverageRating s recipe.id).getD 0))
          ([] : List (Nat × ℚ))) a.id).getD 0 ≤
        (mapGet ((mapValues s.recipes).foldl
          (fun m recipe =>
            mapSet m recipe.id ((getAverageRating s recipe.id).getD 0))
          ([] : List (Nat × ℚ))) b.id).getD 0))) = true := by
    intro a b
    simp only [Bool.or_eq_true, decide_eq_true_eq]
    exact le_total _ _
  refine ⟨(mapValues s.recipes).mergeSort
    (fun a b =>
      decide ((mapGet ((mapValues s.recipes).foldl
          (fun m recipe =>
            mapSet m recipe.id ((getAverageRating s recipe.id).getD 0))
          ([] : List (Nat × ℚ))) b.id).getD 0 ≤
        (mapGet ((mapValues s.recipes).foldl
          (fun m recipe =>
            mapSet m recipe.id ((getAverageRating s recipe.id).getD 0))
          ([] : List (Nat × ℚ))) a.id).getD 0)),
    List.mergeSort_perm _ _, ?_, ?_, rfl, ?_⟩
  · refine List.Pairwise.imp_of_mem ?_
      (List.sorted_mergeSort htrans htotal (mapValues s.recipes))
    intro a b ha hb hab
    rw [List.mem_mergeSort] at ha hb
    rw [hM a ha, hM b hb] at hab
    simpa using hab
  · intro a b hsub hle
    refine List.pair_sublist_mergeSort htrans htotal ?_ hsub
    have ha : a ∈ mapValues s.recipes := hsub.subset (by simp)
    have hb : b ∈ mapValues s.recipes := hsub.subset (by simp)
    rw [hM a ha, hM b hb]
    simpa using hle
  · intro r h
    simp [getAverageRating, h]

/-- Witness for C2 on the concrete store: three recipes with scores
4.5, 3 and 0; the top-2 list has two entries and is sorted descending by
score. -/
theorem getTopRecipes_spec_witness :
    (getTopRecipes demoState9 2).length = 2 ∧
    (getTopRecipes demoState9 2).Pairwise (fun a b =>
      (getAverageRating demoState9 b.id).getD 0 ≤
        (getAverageRating demoState9 a.id).getD 0) := by
  obtain ⟨l, hperm, hsort, _, htake, _⟩ := getTopRecipes_spec demoState9 2
  constructor
  · rw [htake, List.length_take, hperm.length_eq]
    decide
  · rw [htake]
    exact hsort.sublist (List.take_sublist 2 l)

theorem keys_mapSet_of_has {κ β : Type} [DecidableEq κ] (m : List (κ × β))
    (k : κ) (v : β) (h : mapHas m k = true) :
    (mapSet m k v).map (fun p => p.1) = m.map (fun p => p.1) := by
  unfold mapSet
  rw [if_pos h, List.map_map]
  apply List.map_congr_left
  intro p hp
  by_cases hk : p.1 = k
  · simp [Function.comp, hk]
  · simp [Function.comp, hk]

theorem not_mem_keys_of_not_has {κ β : Type} [DecidableEq κ]
    (m : List (κ × β)) (k : κ) (h : mapHas m k = false) :
    k ∉ m.map (fun p => p.1) := by
  intro hk
  obtain ⟨p, hp, hpk⟩ := List.mem_map.mp hk
  unfold mapHas at h
  rw [List.any_eq_false] at h
  have h2 := h p hp
  simp only [decide_eq_true_eq] at h2
  exact h2 hpk

theorem favInv_mapSet (fs : List (String × Favorite)) (fav : Favorite)
    (hinv : FavInv fs) :
    FavInv (mapSet fs (favKey fav.userId fav.recipeId) fav) := by
  constructor
  · intro p hp
    rcases mem_mapSet _ _ _ _ hp with h | h
    · exact hinv.1 p h
    · rw [h]
  · by_cases h : mapHas fs (favKey fav.userId fav.recipeId) = true
    · rw [keys_mapSet_of_has _ _ _ h]
      exact hinv.2
    · have hfalse : mapHas fs (favKey fav.userId fav.recipeId) = false := by
        simpa using h
      rw [mapSet_of_not_has _ _ _ hfalse, List.map_append, List.nodup_append]
      refine ⟨hinv.2, List.nodup_singleton _, ?_⟩
      intro a ha hb
      have hk2 : a = favKey fav.userId fav.recipeId := by simpa using hb
      exact not_mem_keys_of_not_has fs _ hfalse (hk2 ▸ ha)

theorem favInv_mapDelete (fs : List (String × Favorite)) (k : String)
    (hinv : FavInv fs) : FavInv (mapDelete fs k) := by
  constructor
  · intro p hp
    exact hinv.1 p (List.mem_filter.mp hp).1
  · exact List.Nodup.sublist
      (List.Sublist.map _ (List.filter_sublist fs)) hinv.2

theorem reachable_favInv (s : State) (h : Reachable s) : FavInv s.favorites := by
  induction h with
  | init => exact ⟨fun p hp => absurd hp (List.not_mem_nil p), List.nodup_nil⟩
  | createUser s ins now _ ih => exact ih
  | updateUser s id upd _ ih =>
    have hfav : (updateUser s id upd).2.favorites = s.favorites := by
      unfold updateUser
      cases mapGet s.users id <;> rfl
    rw [hfav]
    exact ih
  | createRecipe s ins now _ ih => exact ih
  | updateRecipe s id upd _ ih =>
    have hfav : (updateRecipe s id upd).2.favorites = s.favorites := by
      unfold updateRecipe
      cases mapGet s.recipes id <;> rfl
    rw [hfav]
    exact ih
  | deleteRecipe s id _ ih => exact ih
  | createIngredient s ins _ ih => exact ih
  | createInstruction s ins _ ih => exact ih
  | createReview s ins now _ ih => exact ih
  | updateReview s id upd _ ih =>
    have hfav : (updateReview s id upd).2.favorites = s.favorites := by
      unfold updateReview
      cases mapGet s.reviews id <;> rfl
    rw [hfav]
    exact ih
  | deleteReview s id _ ih => exact ih
  | addFavorite s ins now _ ih =>
    exact favInv_mapSet s.favorites
      { userId := ins.userId, recipeId := ins.recipeId, createdAt := now } ih
  | removeFavorite s u r _ ih => exact favInv_mapDelete _ _ ih
  | addToShoppingList s ins now _ ih => exact ih
  | updateShoppingListItem s id upd _ ih =>
    have hfav : (updateShoppingListItem s id upd).2.favorites = s.favorites := by
      unfold updateShoppingListItem
      cases mapGet s.shoppingItems id <;> rfl
    rw [hfav]
    exact ih
  | deleteShoppingListItem s id _ ih => exact ih
  | clearShoppingList s u _ ih => exact ih
  | createMealPlan s ins now _ ih => exact ih
  | updateMealPlan s id upd _ ih =>
    have hfav : (updateMealPlan s id upd).2.favorites = s.favorites := by
      unfold updateMealPlan
      cases mapGet s.mealPlans id <;> rfl
    rw [hfav]
    exact ih
  | deleteMealPlan s id _ ih => exact ih
  | createActivityLog s ins now _ ih => exact ih

/-- C5: in every reachable store state there is at most one favorite
record per `(userId, recipeId)` pair, and `addFavorite` on an
already-favorited pair silently overwrites the existing record instead
of creating a duplicate (the favorites count does not grow). -/
theorem favorites_at_most_one_per_pair (s : State) (h : Reachable s) :
    (mapValues s.favorites).Pairwise (fun f g =>
      f.userId ≠ g.userId ∨ f.recipeId ≠ g.recipeId) ∧
    (∀ (ins : InsertFavorite) (now : Nat),
      isFavorite s ins.userId ins.recipeId = true →
      (addFavorite s ins now).2.favorites.length = s.favorites.length) := by
  have hinv := reachable_favInv s h
  constructor
  · unfold mapValues
    rw [List.pairwise_map]
    have h2 : s.favorites.Pairwise (fun p q => p.1 ≠ q.1) := by
      have h3 : (s.favorites.map (fun p => p.1)).Pairwise
          (fun a b => a ≠ b) := hinv.2
      rwa [List.pairwise_map] at h3
    refine h2.imp_of_mem ?_
    intro p q hp hq hne
    by_contra hcon
    push_neg at hcon
    obtain ⟨hu, hr⟩ := hcon
    apply hne
    rw [hinv.1 p hp, hinv.1 q hq, hu, hr]
  · intro ins now hfav
    exact length_mapSet_of_has _ _ _ hfav

/-- Witness for C5: a concrete reachable store in which `(1, 1)` was
favorited twice holds no duplicate pair, and the duplicate insert did
not grow the collection. -/
theorem favorites_at_most_one_per_pair_witness :
    (mapValues demoState12.favorites).Pairwise (fun f g =>
      f.userId ≠ g.userId ∨ f.recipeId ≠ g.recipeId) ∧
    demoState12.favorites.length = demoState11.favorites.length := by
  have h9 : Reachable demoState9 :=
    Reachable.createMealPlan _ _ _ (Reachable.createMealPlan _ _ _
      (Reachable.createReview _ _ _ (Reachable.createReview _ _ _
        (Reachable.createReview _ _ _ (Reachable.createRecipe _ _ _
          (Reachable.createRecipe _ _ _ (Reachable.createRecipe _ _ _
            (Reachable.createUser _ _ _ (Reachable.createUser _ _ _
              Reachable.init)))))))))
  have h11 : Reachable demoState11 :=
    Reachable.addFavorite _ _ _ (Reachable.addFavorite _ _ _ h9)
  have h12 : Reachable demoState12 := Reachable.addFavorite _ _ _ h11
  refine ⟨(favorites_at_most_one_per_pair demoState12 h12).1, ?_⟩
  exact (favorites_at_most_one_per_pair demoState11 h11).2
    { userId := 1, recipeId := 1 } 12000 (by decide)

end FlavorForge
